import Mathlib

/-!
Shallow embedding of the events-chatbot backend (src/api/main.py and
src/api/index.py) and proofs of the specification claims.

Python strings are modelled as `List Char`; Python `dict` fields as
association lists; the external model call, the database execution and the
paged HTTP source are modelled as explicit oracle parameters.  Fallible
Python code is modelled with `Option`/`Except`.
-/

namespace EventsBot

/-- Python strings, modelled as lists of characters. -/
abbrev PyStr := List Char

/-- Python truthiness of a string: `bool(s)` is `False` exactly on `""`. -/
def pyTruthyStr (s : PyStr) : Bool := !s.isEmpty

/-- Python truthiness of an `Optional[str]`: falsy on `None` and on `""`. -/
def pyTruthyOpt (o : Option PyStr) : Bool :=
  match o with
  | none => false
  | some s => !s.isEmpty

/-- The characters Python `str.strip()` removes (ASCII whitespace). -/
def isPySpace (c : Char) : Bool :=
  c = ' ' || c = '\t' || c = '\n' || c = '\r' || c = '\x0b' || c = '\x0c'

/-- Python `str.lstrip()`. -/
def pyLstrip (s : PyStr) : PyStr := s.dropWhile isPySpace

/-- Python `str.strip()`. -/
def pyStrip (s : PyStr) : PyStr := ((pyLstrip s).reverse.dropWhile isPySpace).reverse

/-- Python `str.upper()` (ASCII range, which is all this program uses). -/
def pyUpper (s : PyStr) : PyStr := s.map Char.toUpper

/-- The backtick character (used in the code-fence markup). -/
def btickChar : Char := Char.ofNat 96

/-- One step bound for the fence scanner; fuel is the remaining string length. -/
def stripCodeFencesAux : Nat → PyStr → PyStr
  | 0, s => s
  | _ + 1, [] => []
  | fuel + 1, c0 :: c1 :: c2 :: c3 :: c4 :: c5 :: c6 :: rest =>
    if c0 = btickChar ∧ c1 = btickChar ∧ c2 = btickChar ∧ c3 = 's' ∧ c4 = 'q' ∧ c5 = 'l' then
      if c6 = '\n' then stripCodeFencesAux fuel rest
      else stripCodeFencesAux fuel (c6 :: rest)
    else if c0 = btickChar ∧ c1 = btickChar ∧ c2 = btickChar then
      stripCodeFencesAux fuel (c3 :: c4 :: c5 :: c6 :: rest)
    else c0 :: stripCodeFencesAux fuel (c1 :: c2 :: c3 :: c4 :: c5 :: c6 :: rest)
  | fuel + 1, [c0, c1, c2, c3, c4, c5] =>
    if c0 = btickChar ∧ c1 = btickChar ∧ c2 = btickChar ∧ c3 = 's' ∧ c4 = 'q' ∧ c5 = 'l' then []
    else if c0 = btickChar ∧ c1 = btickChar ∧ c2 = btickChar then
      stripCodeFencesAux fuel [c3, c4, c5]
    else c0 :: stripCodeFencesAux fuel [c1, c2, c3, c4, c5]
  | fuel + 1, c0 :: c1 :: c2 :: rest =>
    if c0 = btickChar ∧ c1 = btickChar ∧ c2 = btickChar then stripCodeFencesAux fuel rest
    else c0 :: stripCodeFencesAux fuel (c1 :: c2 :: rest)
  | fuel + 1, c :: rest => c :: stripCodeFencesAux fuel rest

/-- `re.sub` with pattern matching a code fence opener (with the `sql` tag and
an optional trailing newline) or a bare fence, replaced by the empty string,
scanning left to right as Python `re.sub` does. -/
def stripCodeFences (s : PyStr) : PyStr := stripCodeFencesAux s.length s

/-- The gate from `generate_sql_query`:
`sql_query.lstrip().upper().startswith("SELECT")`. -/
def selectOk (s : PyStr) : Bool := List.isPrefixOf "SELECT".data (pyUpper (pyLstrip s))

/-- The fixed literal substituted when the model output fails the SELECT gate. -/
def invalidQueryLiteral : PyStr :=
  "SELECT \x27Invalid request. Only SELECT queries are allowed.\x27;".data

/-- The fixed literal substituted when the model call raises. -/
def genFailLiteral : PyStr :=
  "SELECT \x27AI query generation failed. Please try rephrasing.\x27;".data

/-- `GeminiManager.generate_sql_query` (identical post-processing in
`main.py` and `index.py`).  The external model call is an oracle:
`modelResp = none` models the model call raising an exception, which the
`except` clause turns into the fixed fallback literal; `some text` models a
successful call returning `response.text = text`. -/
def generate_sql_query (user_query flow table_schema : PyStr) (modelResp : Option PyStr) :
    PyStr :=
  match modelResp with
  | none => genFailLiteral
  | some text =>
    let sql_query := pyStrip (stripCodeFences text)
    if selectOk sql_query then sql_query else invalidQueryLiteral

/-! ## Date/time parsing (`_parse_datetime` inside `NeonDBManager._process_record`)

`datetime.strptime` is modelled directive by directive for the four formats
the code tries.  Each numeric directive in those formats is followed by a
non-digit separator (or the end of the string), so Python's regex
backtracking is equivalent to taking the maximal digit run capped at the
directive's width; values the regex alternations exclude are exactly those
the `datetime` constructor also rejects, and a rejection either way makes
`strptime` raise, which the code's `except` turns into trying the next
format. -/

/-- A parsed `datetime` value (naive, as produced by `strptime` here). -/
structure PyDateTime where
  year : Nat
  month : Nat
  day : Nat
  hour : Nat
  minute : Nat
  second : Nat
  microsecond : Nat
deriving DecidableEq

/-- Gregorian leap-year rule used by Python's `datetime`. -/
def isLeapYear (y : Nat) : Bool := y % 4 = 0 && (y % 100 ≠ 0 || y % 400 = 0)

/-- Days in a month, as validated by the `datetime` constructor. -/
def daysInMonth (y m : Nat) : Nat :=
  if m = 2 then (if isLeapYear y then 29 else 28)
  else if m = 4 ∨ m = 6 ∨ m = 9 ∨ m = 11 then 30
  else 31

/-- The `datetime(...)` constructor: validates every component, raising
(`none`) on any out-of-range value. -/
def mkDateTime (y mo d h mi s us : Nat) : Option PyDateTime :=
  if 1 ≤ y ∧ y ≤ 9999 ∧ 1 ≤ mo ∧ mo ≤ 12 ∧ 1 ≤ d ∧ d ≤ daysInMonth y mo ∧
      h ≤ 23 ∧ mi ≤ 59 ∧ s ≤ 59 ∧ us ≤ 999999 then
    some ⟨y, mo, d, h, mi, s, us⟩
  else none

/-- The numeric directives appearing in the four formats. -/
inductive Directive where
  | dY
  | dm
  | dd
  | dH
  | dM
  | dS
  | df
deriving DecidableEq

/-- One item of a `strptime` format: a numeric directive or a literal char. -/
inductive FmtItem where
  | dir (d : Directive)
  | lit (c : Char)
deriving DecidableEq

/-- Maximal number of digits a directive consumes. -/
def dirMax : Directive → Nat
  | .dY => 4
  | .df => 6
  | _ => 2

/-- `%Y` matches exactly four digits; the other directives one up to their
maximum. -/
def dirLenOk : Directive → Nat → Bool
  | .dY, n => n = 4
  | _, n => 1 ≤ n

/-- Take up to `k` leading ASCII digits. -/
def takeDigits : Nat → PyStr → (List Char × PyStr)
  | 0, s => ([], s)
  | _ + 1, [] => ([], [])
  | k + 1, c :: rest =>
    if c.isDigit then
      let (ds, r) := takeDigits k rest
      (c :: ds, r)
    else ([], c :: rest)

/-- Numeric value of a digit string. -/
def digitsToNat (ds : List Char) : Nat := ds.foldl (fun n c => n * 10 + (c.toNat - 48)) 0

/-- Value of a directive's digits; `%f` right-pads the digits to six places. -/
def dirVal (d : Directive) (ds : List Char) : Nat :=
  match d with
  | .df => digitsToNat ds * 10 ^ (6 - ds.length)
  | _ => digitsToNat ds

/-- Partial `strptime` result; Python's defaults are year 1900, month 1,
day 1 and zero time components. -/
structure RawParse where
  pY : Nat := 1900
  pm : Nat := 1
  pd : Nat := 1
  pH : Nat := 0
  pM : Nat := 0
  pS : Nat := 0
  pf : Nat := 0
deriving DecidableEq

/-- Record a directive's parsed value. -/
def applyDir (d : Directive) (v : Nat) (st : RawParse) : RawParse :=
  match d with
  | .dY => { st with pY := v }
  | .dm => { st with pm := v }
  | .dd => { st with pd := v }
  | .dH => { st with pH := v }
  | .dM => { st with pM := v }
  | .dS => { st with pS := v }
  | .df => { st with pf := v }

/-- Run a format against a string; `strptime` demands a full match. -/
def runFmt : List FmtItem → RawParse → PyStr → Option RawParse
  | [], st, [] => some st
  | [], _, _ :: _ => none
  | .lit c :: items, st, x :: xs => if x = c then runFmt items st xs else none
  | .lit _ :: _, _, [] => none
  | .dir d :: items, st, s =>
    let (ds, r) := takeDigits (dirMax d) s
    if dirLenOk d ds.length then runFmt items (applyDir d (dirVal d ds) st) r
    else none

/-- `datetime.strptime(dt_str, fmt)`: `none` models it raising `ValueError`. -/
def strptime (fmt : List FmtItem) (s : PyStr) : Option PyDateTime :=
  (runFmt fmt {} s).bind fun st => mkDateTime st.pY st.pm st.pd st.pH st.pM st.pS st.pf

/-- Decimal digits of `n` (fuel-driven; seven digits cover every component). -/
def natDigitsAux : Nat → Nat → List Char
  | 0, _ => []
  | fuel + 1, n =>
    if n < 10 then [Char.ofNat (48 + n)]
    else natDigitsAux fuel (n / 10) ++ [Char.ofNat (48 + n % 10)]

/-- Decimal rendering of a component value. -/
def natChars (n : Nat) : PyStr := natDigitsAux 7 n

/-- Zero-pad a component to a fixed width. -/
def padZero (w n : Nat) : PyStr :=
  let ds := natChars n
  List.replicate (w - ds.length) '0' ++ ds

/-- `datetime.isoformat()`: `YYYY-MM-DDTHH:MM:SS`, with `.ffffff` appended
exactly when the microsecond component is nonzero. -/
def isoformat (dt : PyDateTime) : PyStr :=
  padZero 4 dt.year ++ "-".data ++ padZero 2 dt.month ++ "-".data ++ padZero 2 dt.day ++
    "T".data ++ padZero 2 dt.hour ++ ":".data ++ padZero 2 dt.minute ++ ":".data ++
    padZero 2 dt.second ++
    (if dt.microsecond ≠ 0 then ".".data ++ padZero 6 dt.microsecond else [])

/-- Format `"%Y-%m-%dT%H:%M:%S.%fZ"`. -/
def fmtIsoFrac : List FmtItem :=
  [.dir .dY, .lit '-', .dir .dm, .lit '-', .dir .dd, .lit 'T', .dir .dH, .lit ':',
    .dir .dM, .lit ':', .dir .dS, .lit '.', .dir .df, .lit 'Z']

/-- Format `"%Y-%m-%dT%H:%M:%SZ"`. -/
def fmtIsoZ : List FmtItem :=
  [.dir .dY, .lit '-', .dir .dm, .lit '-', .dir .dd, .lit 'T', .dir .dH, .lit ':',
    .dir .dM, .lit ':', .dir .dS, .lit 'Z']

/-- Format `"%m/%d/%Y %H:%M"`. -/
def fmtUS : List FmtItem :=
  [.dir .dm, .lit '/', .dir .dd, .lit '/', .dir .dY, .lit ' ', .dir .dH, .lit ':', .dir .dM]

/-- Format `"%Y-%m-%d"`. -/
def fmtDate : List FmtItem := [.dir .dY, .lit '-', .dir .dm, .lit '-', .dir .dd]

/-- The fixed ordered list of formats `_parse_datetime` tries. -/
def pyFormats : List (List FmtItem) := [fmtIsoFrac, fmtIsoZ, fmtUS, fmtDate]

/-- The `for fmt in (...)` loop body of `_parse_datetime`. -/
def parseDatetimeLoop : List (List FmtItem) → PyStr → Option PyStr
  | [], _ => none
  | fmt :: fmts, s =>
    match strptime fmt s with
    | some dt => some (isoformat dt)
    | none => parseDatetimeLoop fmts s

/-- `_parse_datetime(dt_str)`: falsy input maps to `None`, otherwise the
first format that parses wins and its `isoformat()` is returned. -/
def _parse_datetime (dt_str : Option PyStr) : Option PyStr :=
  match dt_str with
  | none => none
  | some s => if s.isEmpty then none else parseDatetimeLoop pyFormats s

/-! ## Records, field mapping and the events table -/

/-- A raw source record: `record.get('id')` and the `'fields'` dict,
modelled as an association list from field names to string values. -/
structure RawRecord where
  id : Option PyStr
  fields : List (PyStr × PyStr)
deriving DecidableEq

/-- Python `dict.get(k)` on an association list. -/
def dictGet (k : PyStr) (d : List (PyStr × PyStr)) : Option PyStr :=
  (d.find? fun p => p.1 == k).map Prod.snd

/-- The parameter dict `_process_record` builds for one record (the keys of
the `INSERT` statement, in source order). -/
structure MappedRecord where
  airtable_id : Option PyStr
  name : Option PyStr
  source : Option PyStr
  workstream : Option PyStr
  programme : Option PyStr
  type : Option PyStr
  start_time : Option PyStr
  end_time : Option PyStr
  linked_space : Option PyStr
  dependencies : Option PyStr
  owner : Option PyStr
  notes : Option PyStr
  tags : Option PyStr
  pmo_tracking : Option PyStr
  created_on : Option PyStr
deriving DecidableEq

/-- `NeonDBManager._process_record`. -/
def _process_record (record : RawRecord) : MappedRecord :=
  let fields := record.fields
  { airtable_id := record.id
    name := dictGet "Name".data fields
    source := dictGet "Source".data fields
    workstream := dictGet "Workstream".data fields
    programme := dictGet "Programme".data fields
    type := dictGet "Type".data fields
    start_time := _parse_datetime (dictGet "StartTime".data fields)
    end_time := _parse_datetime (dictGet "EndTime".data fields)
    linked_space := dictGet "LinkedSpace".data fields
    dependencies := dictGet "Dependencies".data fields
    owner := dictGet "Owner".data fields
    notes := dictGet "Notes".data fields
    tags := dictGet "Tags".data fields
    pmo_tracking := dictGet "PMO Tracking".data fields
    created_on := _parse_datetime (dictGet "Created On".data fields) }

/-- The raw field keys `_process_record` reads; every other key is dropped. -/
def knownFieldKeys : List PyStr :=
  ["Name".data, "Source".data, "Workstream".data, "Programme".data, "Type".data,
    "StartTime".data, "EndTime".data, "LinkedSpace".data, "Dependencies".data,
    "Owner".data, "Notes".data, "Tags".data, "PMO Tracking".data, "Created On".data]

/-- One row of the `events` table (the `SERIAL` surrogate key is irrelevant
to every claim and omitted); `updated_at` holds the `CURRENT_TIMESTAMP`
value of the transaction that last wrote the row. -/
structure EventRow where
  airtable_id : PyStr
  name : Option PyStr
  source : Option PyStr
  workstream : Option PyStr
  programme : Option PyStr
  type : Option PyStr
  start_time : Option PyStr
  end_time : Option PyStr
  linked_space : Option PyStr
  dependencies : Option PyStr
  owner : Option PyStr
  notes : Option PyStr
  tags : Option PyStr
  pmo_tracking : Option PyStr
  created_on : Option PyStr
  updated_at : Nat
deriving DecidableEq

/-- The `events` table: a list of rows (insertion order). -/
abbrev Table := List EventRow

/-- The row written for a mapped record at timestamp `now` (both the insert
arm and the `ON CONFLICT ... DO UPDATE` arm set every mutable column from
the record and `updated_at` from `CURRENT_TIMESTAMP`). -/
def rowOfMapped (aid : PyStr) (m : MappedRecord) (now : Nat) : EventRow :=
  { airtable_id := aid
    name := m.name
    source := m.source
    workstream := m.workstream
    programme := m.programme
    type := m.type
    start_time := m.start_time
    end_time := m.end_time
    linked_space := m.linked_space
    dependencies := m.dependencies
    owner := m.owner
    notes := m.notes
    tags := m.tags
    pmo_tracking := m.pmo_tracking
    created_on := m.created_on
    updated_at := now }

/-- One execution of the `INSERT ... ON CONFLICT (airtable_id) DO UPDATE`
statement: overwrite the conflicting row if present, else append a new row. -/
def upsert (now : Nat) (tbl : Table) (m : MappedRecord) : Table :=
  let aid := m.airtable_id.getD []
  if tbl.any fun row => row.airtable_id == aid then
    tbl.map fun row => if row.airtable_id == aid then rowOfMapped aid m now else row
  else tbl ++ [rowOfMapped aid m now]

/-- The filtered, mapped batch `sync_records` builds:
`[self._process_record(r) for r in records if r.get('id')]`. -/
def processedBatch (records : List RawRecord) : List MappedRecord :=
  (records.filter fun r => pyTruthyOpt r.id).map _process_record

/-- `NeonDBManager.sync_records`: the boolean reports whether any write was
performed (the early `return` on an empty processed batch skips even
opening a connection). -/
def sync_records (now : Nat) (tbl : Table) (records : List RawRecord) : Table × Bool :=
  let processed := processedBatch records
  if processed.isEmpty then (tbl, false)
  else (processed.foldl (upsert now) tbl, true)

/-- `execute_batch` under an exception oracle: statements run in order
inside the single transaction; `none` models the first raising statement
aborting the batch. -/
def runBatch (fails : MappedRecord → Bool) (now : Nat) :
    Table → List MappedRecord → Option Table
  | tbl, [] => some tbl
  | tbl, m :: ms => if fails m then none else runBatch fails now (upsert now tbl m) ms

/-- `sync_records` with the `with connection` transaction semantics made
explicit: on an exception inside the block psycopg2 rolls the transaction
back, so the visible table is the prior one and the boolean reports the
commit; on success `c.commit()` publishes every upsert at once. -/
def sync_records_tx (fails : MappedRecord → Bool) (now : Nat) (tbl : Table)
    (records : List RawRecord) : Table × Bool :=
  let processed := processedBatch records
  if processed.isEmpty then (tbl, false)
  else
    match runBatch fails now tbl processed with
    | some t => (t, true)
    | none => (tbl, false)

/-! ## Source-API pagination (`AirtableClient.fetch_all_records`) -/

/-- One page response from the source API.  `failure` models
`raise_for_status` or the transport raising (`aiohttp.ClientError`), which
the code re-raises as `Exception`; `success` carries `data.get("records", [])`
and `data.get("offset")`. -/
inductive PageResult where
  | failure (err : PyStr)
  | success (records : List RawRecord) (offset : Option PyStr)
deriving DecidableEq

/-- The `while True` fetch loop, consuming the source's page responses in
request order; `none` models the server handing out more truthy cursors
than it has responses (the loop would keep requesting). -/
def fetchLoop : List PageResult → List RawRecord → Option (Except PyStr (List RawRecord))
  | [], _ => none
  | .failure e :: _, _ => some (.error e)
  | .success recs off :: rest, acc =>
    let acc' := acc ++ recs
    if pyTruthyOpt off then fetchLoop rest acc' else some (.ok acc')

/-- `AirtableClient.fetch_all_records`, starting with no `offset` param and
an empty accumulator. -/
def fetch_all_records (responses : List PageResult) : Option (Except PyStr (List RawRecord)) :=
  fetchLoop responses []

/-- A successful page response carrying a continuation cursor. -/
def mkPage (p : List RawRecord × PyStr) : PageResult := .success p.1 (some p.2)

/-! ## HTTP handlers -/

/-- The request body `{flow, query}`; `query` is `Optional[str] = None`. -/
structure QueryRequest where
  flow : PyStr
  query : Option PyStr
deriving DecidableEq

/-- An HTTP outcome: a 200 payload `{data, type}` or an `HTTPException`. -/
inductive HttpResponse where
  | ok (data : List EventRow) (respType : PyStr)
  | httpError (status : Nat) (detail : PyStr)
deriving DecidableEq

/-- Status code of a response (a plain 200 for the payload case). -/
def statusOf : HttpResponse → Nat
  | .ok _ _ => 200
  | .httpError s _ => s

/-- Which collaborators a handler run invoked. -/
structure CallTrace where
  genCalled : Bool
  dbCalled : Bool
deriving DecidableEq

/-- `db_manager.execute_query` as an oracle: the rows returned for a SQL
text, or the exception it raises. -/
abbrev DbExec := PyStr → Except PyStr (List EventRow)

/-- The response-shape label: `"detail" if flow == "get_event_details" else "list"`. -/
def responseTypeFor (flow : PyStr) : PyStr :=
  if flow == "get_event_details".data then "detail".data else "list".data

/-- `handle_query` of `main.py` (`POST /`): empty query → 400; then the
generator (whose own errors are swallowed into a fallback literal) and the
read path run inside one `try`, any exception of which becomes a generic
500. -/
def handle_query_main (schema : PyStr) (request : QueryRequest)
    (modelResp : Option PyStr) (db : DbExec) : HttpResponse × CallTrace :=
  if !pyTruthyOpt request.query then
    (.httpError 400 "Query text cannot be empty.".data, ⟨false, false⟩)
  else
    let sql_query := generate_sql_query (request.query.getD []) request.flow schema modelResp
    match db sql_query with
    | .error _ => (.httpError 500 "An internal server error occurred.".data, ⟨true, true⟩)
    | .ok results => (.ok results (responseTypeFor request.flow), ⟨true, true⟩)

/-- `handle_query` of `index.py` (`POST /query`): a falsy cached schema
summary → 503 before anything else, then as in the other variant. -/
def handle_query_index (schema : PyStr) (request : QueryRequest)
    (modelResp : Option PyStr) (db : DbExec) : HttpResponse × CallTrace :=
  if !pyTruthyStr schema then
    (.httpError 503 "Service not ready: Schema not loaded.".data, ⟨false, false⟩)
  else if !pyTruthyOpt request.query then
    (.httpError 400 "Query text cannot be empty.".data, ⟨false, false⟩)
  else
    let sql_query := generate_sql_query (request.query.getD []) request.flow schema modelResp
    match db sql_query with
    | .error _ => (.httpError 500 "An internal server error occurred.".data, ⟨true, true⟩)
    | .ok results => (.ok results (responseTypeFor request.flow), ⟨true, true⟩)

/-! ## Sync endpoint (`POST /api/sync`) -/

/-- The success message `f"Synced {len(records)} records."`. -/
def syncMessage (records : List RawRecord) : PyStr :=
  "Synced ".data ++ natChars records.length ++ " records.".data

/-- The count `N` reported in the sync success message. -/
def syncReportedCount (records : List RawRecord) : Nat := records.length

/-- How many records `sync_records` actually upserts from a batch. -/
def upsertedCount (records : List RawRecord) : Nat := (processedBatch records).length

/-- `sync_data`: fetch, upsert, report `{message: ...}`; any exception
becomes a 500 carrying the raw error text (`detail=str(e)`), with the
table unchanged when the fetch itself failed. -/
def sync_data (tbl : Table) (now : Nat) (responses : List PageResult) :
    Option (Table × Except PyStr PyStr) :=
  match fetch_all_records responses with
  | none => none
  | some (.error e) => some (tbl, .error e)
  | some (.ok records) =>
    some ((sync_records now tbl records).1, .ok (syncMessage records))

/-! ## Auxiliary definitions for statements and concrete instances -/

/-- Number of rows carrying a given external identifier. -/
def countById (aid : PyStr) (tbl : Table) : Nat :=
  (tbl.filter fun row => row.airtable_id == aid).length

/-- The external identifiers of a table, in row order. -/
def tableIds (tbl : Table) : List PyStr := tbl.map EventRow.airtable_id

/-- A fetched record whose `id` is absent. -/
def noIdRecord : RawRecord := ⟨none, []⟩

/-- A sample record for `rec1`, first version of its fields. -/
def sampleRecordA : RawRecord := ⟨some "rec1".data, [("Name".data, "Opening".data)]⟩

/-- A sample record for `rec1`, second version of its fields. -/
def sampleRecordB : RawRecord := ⟨some "rec1".data, [("Name".data, "Closing".data)]⟩

/-- A database oracle that always succeeds with no rows. -/
def okDb : DbExec := fun _ => Except.ok []

/-- A database oracle that always raises. -/
def failDb : DbExec := fun _ => Except.error "db down".data

/-! ## Helper lemmas -/

theorem generate_sql_query_some (user_query flow table_schema text : PyStr) :
    generate_sql_query user_query flow table_schema (some text) =
      if selectOk (pyStrip (stripCodeFences text)) then pyStrip (stripCodeFences text)
      else invalidQueryLiteral := rfl

theorem selectOk_invalidQueryLiteral : selectOk invalidQueryLiteral = true := by decide

theorem selectOk_genFailLiteral : selectOk genFailLiteral = true := by decide

/-! ## Claim theorems -/

/-- C1: for every possible model-response text (including the error path),
the string returned by `GeminiManager.generate_sql_query` begins, after
stripping code-fence markup and ignoring leading whitespace, with the
keyword SELECT (case-insensitive); any model output not satisfying this
prefix check is discarded and replaced by the fixed literal query
`SELECT 'Invalid request. Only SELECT queries are allowed.';`. -/
theorem claimC1_select_gate (user_query flow table_schema : PyStr)
    (modelResp : Option PyStr) :
    selectOk (generate_sql_query user_query flow table_schema modelResp) = true ∧
    (∀ text, modelResp = some text →
      selectOk (pyStrip (stripCodeFences text)) = false →
      generate_sql_query user_query flow table_schema modelResp = invalidQueryLiteral) := by
  constructor
  · cases modelResp with
    | none => exact selectOk_genFailLiteral
    | some text =>
      rw [generate_sql_query_some]
      by_cases h : selectOk (pyStrip (stripCodeFences text)) = true
      · rw [if_pos h]; exact h
      · rw [if_neg h]; exact selectOk_invalidQueryLiteral
  · intro text htext hfail
    subst htext
    rw [generate_sql_query_some, if_neg (by rw [hfail]; exact Bool.false_ne_true)]

/-- Witness for C1 at a concrete non-SELECT model output. -/
theorem claimC1_select_gate_witness :
    selectOk (generate_sql_query [] [] [] (some "DROP TABLE events;".data)) = true ∧
    generate_sql_query [] [] [] (some "DROP TABLE events;".data) = invalidQueryLiteral :=
  ⟨(claimC1_select_gate [] [] [] (some "DROP TABLE events;".data)).1,
    (claimC1_select_gate [] [] [] (some "DROP TABLE events;".data)).2
      "DROP TABLE events;".data rfl (by decide)⟩

/-- C9: for every input, if the external model call raises an error,
`generate_sql_query` returns the fixed literal fallback query
`SELECT 'AI query generation failed. Please try rephrasing.';` and never
propagates the error to its caller (its result type is a plain string). -/
theorem claimC9_generation_failure_fallback (user_query flow table_schema : PyStr) :
    generate_sql_query user_query flow table_schema none = genFailLiteral ∧
    genFailLiteral = "SELECT \x27AI query generation failed. Please try rephrasing.\x27;".data :=
  ⟨rfl, rfl⟩

/-- C4: records lacking an external identifier are skipped (never written),
and a batch with no identifier-bearing record — in particular the empty
batch — leaves the database state entirely unchanged with no write
performed. -/
theorem claimC4_skip_and_frame (tbl : Table) (now : Nat) (records : List RawRecord) :
    sync_records now tbl [] = (tbl, false) ∧
    ((∀ r ∈ records, pyTruthyOpt r.id = false) → sync_records now tbl records = (tbl, false)) ∧
    (∀ r rest, pyTruthyOpt r.id = false →
      sync_records now tbl (r :: rest) = sync_records now tbl rest) := by
  refine ⟨rfl, ?_, ?_⟩
  · intro hall
    have hfilter : records.filter (fun r => pyTruthyOpt r.id) = [] :=
      List.filter_eq_nil_iff.mpr (fun a ha => by simp [hall a ha])
    simp [sync_records, processedBatch, hfilter]
  · intro r rest hr
    have hcons : (r :: rest).filter (fun s => pyTruthyOpt s.id) =
        rest.filter (fun s => pyTruthyOpt s.id) :=
      List.filter_cons_of_neg (by simp [hr])
    simp [sync_records, processedBatch, hcons]

/-- Witness for C4: a concrete id-less record is not written, and the empty
batch leaves the table unchanged. -/
theorem claimC4_skip_and_frame_witness :
    sync_records 0 [] [noIdRecord] = ([], false) ∧ sync_records 0 [] [] = ([], false) :=
  ⟨(claimC4_skip_and_frame [] 0 [noIdRecord]).2.1 (by decide),
    (claimC4_skip_and_frame [] 0 [noIdRecord]).1⟩

/-- C3 counterexample: for the one-element batch whose record lacks an `id`,
the endpoint reports `Synced 1 records.` although the store manager upserts
zero records, so the reported count is not the number actually upserted. -/
theorem claimC3_counterexample :
    syncMessage [noIdRecord] = "Synced 1 records.".data ∧
    syncReportedCount [noIdRecord] = 1 ∧ upsertedCount [noIdRecord] = 0 := by decide

/-- C3 (amended): the count `N` in `Synced N records.` is the number of
fetched records; it equals the number actually upserted exactly when every
fetched record carries a truthy external identifier. -/
theorem claimC3_reported_count (records : List RawRecord) :
    syncReportedCount records = records.length ∧
    syncMessage records = "Synced ".data ++ natChars records.length ++ " records.".data ∧
    ((∀ r ∈ records, pyTruthyOpt r.id = true) →
      syncReportedCount records = upsertedCount records) := by
  refine ⟨rfl, rfl, ?_⟩
  intro hall
  have hfilter : records.filter (fun r => pyTruthyOpt r.id) = records :=
    List.filter_eq_self.mpr (fun a ha => by simpa using hall a ha)
  simp [syncReportedCount, upsertedCount, processedBatch, hfilter]

/-- Witness for C3 (amended) at a concrete id-bearing batch. -/
theorem claimC3_reported_count_witness :
    syncReportedCount [sampleRecordA] = upsertedCount [sampleRecordA] :=
  (claimC3_reported_count [sampleRecordA]).2.2 (by decide)

/-- C5 counterexample: on the `index.py` variant with the schema summary
not loaded, an absent query text yields 503, not the claimed 400 (the
schema check runs first), though neither collaborator is invoked. -/
theorem claimC5_counterexample :
    statusOf (handle_query_index [] ⟨[], none⟩ none okDb).1 = 503 ∧
    ¬statusOf (handle_query_index [] ⟨[], none⟩ none okDb).1 = 400 := by decide

/-- C5 (amended): an empty (or absent) query text yields a 400 client error
— always on the `main.py` variant, and on the `index.py` variant whenever
the schema summary is loaded, the unloaded-schema case answering 503
instead — and in every such case neither the SQL generator nor the store
manager's read path is invoked. -/
theorem claimC5_empty_query (schema : PyStr) (request : QueryRequest)
    (modelResp : Option PyStr) (db : DbExec)
    (hq : pyTruthyOpt request.query = false) :
    handle_query_main schema request modelResp db =
      (.httpError 400 "Query text cannot be empty.".data, ⟨false, false⟩) ∧
    (pyTruthyStr schema = true →
      handle_query_index schema request modelResp db =
        (.httpError 400 "Query text cannot be empty.".data, ⟨false, false⟩)) ∧
    (pyTruthyStr schema = false →
      handle_query_index schema request modelResp db =
        (.httpError 503 "Service not ready: Schema not loaded.".data, ⟨false, false⟩)) := by
  refine ⟨by simp [handle_query_main, hq], ?_, ?_⟩
  · intro hs; simp [handle_query_index, hs, hq]
  · intro hs; simp [handle_query_index, hs]

/-- Witness for C5 (amended) at concrete requests on both variants. -/
theorem claimC5_empty_query_witness :
    handle_query_main "sch".data ⟨[], some []⟩ none okDb =
      (.httpError 400 "Query text cannot be empty.".data, ⟨false, false⟩) ∧
    handle_query_index "sch".data ⟨[], some []⟩ none okDb =
      (.httpError 400 "Query text cannot be empty.".data, ⟨false, false⟩) ∧
    handle_query_index [] ⟨[], some []⟩ none okDb =
      (.httpError 503 "Service not ready: Schema not loaded.".data, ⟨false, false⟩) :=
  ⟨(claimC5_empty_query "sch".data ⟨[], some []⟩ none okDb (by decide)).1,
    (claimC5_empty_query "sch".data ⟨[], some []⟩ none okDb (by decide)).2.1 (by decide),
    (claimC5_empty_query [] ⟨[], some []⟩ none okDb (by decide)).2.2 (by decide)⟩

/-- C6 counterexample: the `main.py` variant has no schema-readiness check
at all — with the schema summary not loaded and a nonempty query it answers
200, not the claimed 503. -/
theorem claimC6_counterexample :
    statusOf (handle_query_main [] ⟨[], some "hi".data⟩ (some "SELECT 1".data) okDb).1 = 200 ∧
    ¬statusOf (handle_query_main [] ⟨[], some "hi".data⟩ (some "SELECT 1".data) okDb).1 = 503 := by
  decide

/-- C6 (amended): empty query text yields 400 (on the `index.py` variant
only once the schema is loaded, the unloaded case yielding 503 first); the
503 schema-readiness answer exists only on the `index.py` variant — the
`main.py` variant never returns 503 and proceeds regardless of the schema;
and on both variants an unexpected internal failure of the read path yields
a 500 whose body carries only the fixed generic message, independent of the
underlying error. -/
theorem claimC6_status_codes (schema : PyStr) (request : QueryRequest)
    (modelResp : Option PyStr) (db : DbExec) :
    (pyTruthyOpt request.query = false →
      (handle_query_main schema request modelResp db).1 =
        .httpError 400 "Query text cannot be empty.".data) ∧
    (pyTruthyStr schema = false →
      (handle_query_index schema request modelResp db).1 =
        .httpError 503 "Service not ready: Schema not loaded.".data) ∧
    (pyTruthyStr schema = true → pyTruthyOpt request.query = false →
      (handle_query_index schema request modelResp db).1 =
        .httpError 400 "Query text cannot be empty.".data) ∧
    (∀ e, pyTruthyOpt request.query = true →
      db (generate_sql_query (request.query.getD []) request.flow schema modelResp) =
        .error e →
      (handle_query_main schema request modelResp db).1 =
        .httpError 500 "An internal server error occurred.".data ∧
      (pyTruthyStr schema = true →
        (handle_query_index schema request modelResp db).1 =
          .httpError 500 "An internal server error occurred.".data)) ∧
    statusOf (handle_query_main schema request modelResp db).1 ≠ 503 := by
  refine ⟨?_, ?_, ?_, ?_, ?_⟩
  · intro hq; simp [handle_query_main, hq]
  · intro hs; simp [handle_query_index, hs]
  · intro hs hq; simp [handle_query_index, hs, hq]
  · intro e hq hdb
    constructor
    · simp [handle_query_main, hq, hdb]
    · intro hs; simp [handle_query_index, hs, hq, hdb]
  · unfold handle_query_main
    by_cases hq : pyTruthyOpt request.query = false
    · simp [hq, statusOf]
    · rw [Bool.not_eq_false] at hq
      simp only [hq, Bool.not_true, Bool.false_eq_true, if_false]
      cases db (generate_sql_query (request.query.getD []) request.flow schema modelResp) with
      | error e => simp [statusOf]
      | ok results => simp [statusOf]

/-- Witness for C6 (amended) at concrete requests, covering the 400, 503
and generic-500 cases. -/
theorem claimC6_status_codes_witness :
    (handle_query_main "sch".data ⟨[], none⟩ none okDb).1 =
      .httpError 400 "Query text cannot be empty.".data ∧
    (handle_query_index [] ⟨[], none⟩ none okDb).1 =
      .httpError 503 "Service not ready: Schema not loaded.".data ∧
    (handle_query_main "sch".data ⟨[], some "hi".data⟩ none failDb).1 =
      .httpError 500 "An internal server error occurred.".data :=
  ⟨(claimC6_status_codes "sch".data ⟨[], none⟩ none okDb).1 (by decide),
    (claimC6_status_codes [] ⟨[], none⟩ none okDb).2.1 (by decide),
    ((claimC6_status_codes "sch".data ⟨[], some "hi".data⟩ none failDb).2.2.2.1
      "db down".data (by decide) rfl).1⟩

/-- Running the fetch loop over a block of cursor-bearing pages accumulates
their records in order and proceeds to the remaining responses. -/
theorem fetchLoop_cursor_pages (pre : List (List RawRecord × PyStr))
    (hpre : ∀ p ∈ pre, p.2 ≠ ([] : PyStr)) (l : List PageResult) (acc : List RawRecord) :
    fetchLoop (pre.map mkPage ++ l) acc = fetchLoop l (acc ++ (pre.map Prod.fst).flatten) := by
  induction pre generalizing acc with
  | nil => simp
  | cons p ps ih =>
    have hp : p.2.isEmpty = false := by
      cases hsnd : p.2 with
      | nil => exact absurd hsnd (hpre p (by simp))
      | cons c cs => rfl
    have htr : pyTruthyOpt (some p.2) = true := by simp [pyTruthyOpt, hp]
    simp only [List.map_cons, List.cons_append, mkPage, fetchLoop, htr, if_true,
      List.append_eq]
    rw [ih (fun q hq => hpre q (by simp [hq]))]
    simp [List.append_assoc]

/-- C7: for every sequence of page responses, the fetch returns the
concatenation of all pages' records, requesting further pages exactly while
the previous response carried a truthy continuation cursor (responses after
the cursor-less page are never requested, and none is requested twice), and
a failing page aborts the whole fetch with an error and no partial record
list. -/
theorem claimC7_pagination (pre : List (List RawRecord × PyStr))
    (hpre : ∀ p ∈ pre, p.2 ≠ ([] : PyStr)) :
    (∀ lastRecs lastOff rest, pyTruthyOpt lastOff = false →
      fetch_all_records (pre.map mkPage ++ PageResult.success lastRecs lastOff :: rest) =
        some (.ok ((pre.map Prod.fst).flatten ++ lastRecs))) ∧
    (∀ e rest,
      fetch_all_records (pre.map mkPage ++ PageResult.failure e :: rest) =
        some (.error e)) := by
  constructor
  · intro lastRecs lastOff rest hoff
    rw [fetch_all_records, fetchLoop_cursor_pages pre hpre]
    simp [fetchLoop, hoff]
  · intro e rest
    rw [fetch_all_records, fetchLoop_cursor_pages pre hpre]
    simp [fetchLoop]

/-- Witness for C7: two cursor-bearing pages, then a cursor-less page (its
trailing responses untouched), and the same prefix followed by a failure. -/
theorem claimC7_pagination_witness :
    fetch_all_records
        ([([sampleRecordA], "off1".data), ([sampleRecordB], "off2".data)].map mkPage ++
          PageResult.success [noIdRecord] none :: [PageResult.failure "late".data]) =
      some (.ok [sampleRecordA, sampleRecordB, noIdRecord]) ∧
    fetch_all_records
        ([([sampleRecordA], "off1".data), ([sampleRecordB], "off2".data)].map mkPage ++
          PageResult.failure "boom".data :: []) =
      some (.error "boom".data) :=
  ⟨by
    have h := (claimC7_pagination
        [([sampleRecordA], "off1".data), ([sampleRecordB], "off2".data)] (by decide)).1
        [noIdRecord] none [PageResult.failure "late".data] (by decide)
    simpa using h,
    by
    have h := (claimC7_pagination
        [([sampleRecordA], "off1".data), ([sampleRecordB], "off2".data)] (by decide)).2
        "boom".data []
    simpa using h⟩

/-- A batch containing a raising statement aborts before any commit. -/
theorem runBatch_eq_none (fails : MappedRecord → Bool) (now : Nat) :
    ∀ (ms : List MappedRecord) (tbl : Table),
      (∃ m ∈ ms, fails m = true) → runBatch fails now tbl ms = none := by
  intro ms
  induction ms with
  | nil => rintro tbl ⟨m, hm, _⟩; cases hm
  | cons m ms ih =>
    rintro tbl ⟨x, hx, hfx⟩
    by_cases h : fails m = true
    · simp [runBatch, h]
    · have hxm : x ∈ ms := by
        rcases List.mem_cons.mp hx with hxe | hxs
        · exact absurd (hxe ▸ hfx) h
        · exact hxs
      rw [Bool.not_eq_true] at h
      simp only [runBatch, h, Bool.false_eq_true, if_false]
      exact ih _ ⟨x, hxm, hfx⟩

/-- A batch with no raising statement commits the fold of its upserts. -/
theorem runBatch_eq_some (fails : MappedRecord → Bool) (now : Nat) :
    ∀ (ms : List MappedRecord) (tbl : Table),
      (∀ m ∈ ms, fails m = false) →
      runBatch fails now tbl ms = some (ms.foldl (upsert now) tbl) := by
  intro ms
  induction ms with
  | nil => intro tbl _; rfl
  | cons m ms ih =>
    intro tbl hall
    have hm : fails m = false := hall m (by simp)
    simp only [runBatch, hm, Bool.false_eq_true, if_false, List.foldl_cons]
    exact ih _ (fun x hx => hall x (by simp [hx]))

/-- C10: the batch upsert of `sync_records` is atomic — if executing the
statement for any record of the batch raises, the single enclosing
transaction rolls back and the visible table is the prior one with nothing
committed; the commit happens only after every statement succeeded, and
then yields exactly the batch of upserts. -/
theorem claimC10_batch_atomicity (fails : MappedRecord → Bool) (now : Nat)
    (tbl : Table) (records : List RawRecord) :
    ((∃ m ∈ processedBatch records, fails m = true) →
      sync_records_tx fails now tbl records = (tbl, false)) ∧
    ((∀ m ∈ processedBatch records, fails m = false) →
      sync_records_tx fails now tbl records = sync_records now tbl records) := by
  constructor
  · rintro ⟨m, hm, hf⟩
    have hne : (processedBatch records).isEmpty = false := by
      cases h : processedBatch records with
      | nil => rw [h] at hm; cases hm
      | cons a l => rfl
    simp only [sync_records_tx, hne, Bool.false_eq_true, if_false]
    rw [runBatch_eq_none fails now _ tbl ⟨m, hm, hf⟩]
  · intro hall
    by_cases h : (processedBatch records).isEmpty
    · simp [sync_records_tx, sync_records, h]
    · simp only [sync_records_tx, sync_records, h, Bool.false_eq_true, if_false]
      rw [runBatch_eq_some fails now _ tbl hall]

/-- Witness for C10: with one id-bearing record and an always-raising
oracle the table is untouched; with a never-raising oracle the transaction
commits the same result as `sync_records`. -/
theorem claimC10_batch_atomicity_witness :
    sync_records_tx (fun _ => true) 5 [] [sampleRecordA] = ([], false) ∧
    sync_records_tx (fun _ => false) 5 [] [sampleRecordA] =
      sync_records 5 [] [sampleRecordA] :=
  ⟨(claimC10_batch_atomicity (fun _ => true) 5 [] [sampleRecordA]).1
      ⟨_process_record sampleRecordA, by decide, rfl⟩,
    (claimC10_batch_atomicity (fun _ => false) 5 [] [sampleRecordA]).2
      (fun _ _ => rfl)⟩

/-- The `for fmt in (...)` loop returns the first format that parses. -/
theorem parseDatetimeLoop_eq_findSome (fmts : List (List FmtItem)) (s : PyStr) :
    parseDatetimeLoop fmts s = fmts.findSome? fun fmt => (strptime fmt s).map isoformat := by
  induction fmts with
  | nil => rfl
  | cons f fs ih =>
    rw [List.findSome?_cons]
    cases h : strptime f s with
    | none => simpa [parseDatetimeLoop, h] using ih
    | some dt => simp [parseDatetimeLoop, h]

/-- Looking a key up past an unequal head entry skips that entry. -/
theorem dictGet_cons_ne (key k v : PyStr) (fields : List (PyStr × PyStr)) (h : k ≠ key) :
    dictGet key ((k, v) :: fields) = dictGet key fields := by
  have hb : (k == key) = false := beq_eq_false_iff_ne.mpr h
  simp [dictGet, List.find?_cons, hb]

/-- C8: date/time strings are parsed by trying the fixed ordered list of
formats and returning the first successful parse; an absent value or one
matching no format maps to an absent column value; and a raw field whose
key answers to no schema column is dropped without affecting the mapped
record. -/
theorem claimC8_field_mapping (s : PyStr) (r : RawRecord) (k v : PyStr) :
    _parse_datetime none = none ∧
    (s ≠ [] → _parse_datetime (some s) =
      pyFormats.findSome? fun fmt => (strptime fmt s).map isoformat) ∧
    ((∀ fmt ∈ pyFormats, strptime fmt s = none) → _parse_datetime (some s) = none) ∧
    (k ∉ knownFieldKeys → _process_record ⟨r.id, (k, v) :: r.fields⟩ = _process_record r) := by
  refine ⟨rfl, ?_, ?_, ?_⟩
  · intro hs
    have hemp : s.isEmpty = false := by cases s with
      | nil => exact absurd rfl hs
      | cons c cs => rfl
    simp [_parse_datetime, hemp, parseDatetimeLoop_eq_findSome]
  · intro hall
    cases s with
    | nil => rfl
    | cons c cs =>
      simp only [_parse_datetime, List.isEmpty_cons, Bool.false_eq_true, if_false,
        parseDatetimeLoop_eq_findSome]
      exact List.findSome?_eq_none_iff.mpr (fun fmt hf => by rw [hall fmt hf]; rfl)
  · intro hk
    simp only [knownFieldKeys, List.mem_cons, List.not_mem_nil, or_false, not_or] at hk
    obtain ⟨h1, h2, h3, h4, h5, h6, h7, h8, h9, h10, h11, h12, h13, h14⟩ := hk
    simp only [_process_record]
    rw [dictGet_cons_ne _ _ _ _ h1, dictGet_cons_ne _ _ _ _ h2, dictGet_cons_ne _ _ _ _ h3,
      dictGet_cons_ne _ _ _ _ h4, dictGet_cons_ne _ _ _ _ h5, dictGet_cons_ne _ _ _ _ h6,
      dictGet_cons_ne _ _ _ _ h7, dictGet_cons_ne _ _ _ _ h8, dictGet_cons_ne _ _ _ _ h9,
      dictGet_cons_ne _ _ _ _ h10, dictGet_cons_ne _ _ _ _ h11, dictGet_cons_ne _ _ _ _ h12,
      dictGet_cons_ne _ _ _ _ h13, dictGet_cons_ne _ _ _ _ h14]

/-- Witness for C8: a US-format timestamp parses via the format list, a
non-matching string maps to an absent value, and an unknown raw field is
dropped. -/
theorem claimC8_field_mapping_witness :
    _parse_datetime (some "07/19/2025 14:30".data) =
      (pyFormats.findSome? fun fmt =>
        (strptime fmt "07/19/2025 14:30".data).map isoformat) ∧
    _parse_datetime (some "garbage".data) = none ∧
    _process_record ⟨some "rec1".data, ("Foo".data, "Bar".data) ::
        [("Name".data, "Opening".data)]⟩ =
      _process_record ⟨some "rec1".data, [("Name".data, "Opening".data)]⟩ :=
  ⟨(claimC8_field_mapping "07/19/2025 14:30".data ⟨none, []⟩ [] []).2.1 (by decide),
    (claimC8_field_mapping "garbage".data ⟨none, []⟩ [] []).2.2.1 (by decide),
    (claimC8_field_mapping [] ⟨some "rec1".data, [("Name".data, "Opening".data)]⟩
      "Foo".data "Bar".data).2.2.2 (by decide)⟩

/-- A nonempty identifier is truthy. -/
theorem pyTruthyOpt_some_of_ne (s : PyStr) (h : s ≠ []) : pyTruthyOpt (some s) = true := by
  cases s with
  | nil => exact absurd rfl h
  | cons c cs => rfl

/-- A one-record batch with a truthy identifier performs exactly one upsert. -/
theorem sync_records_singleton (t : Nat) (tbl : Table) (r : RawRecord)
    (h : pyTruthyOpt r.id = true) :
    sync_records t tbl [r] = (upsert t tbl (_process_record r), true) := by
  simp [sync_records, processedBatch, List.filter, h]

/-- If the head fails the predicate but some element satisfies it, the
tail contains such an element. -/
theorem any_tail (p : EventRow → Bool) (r : EventRow) (rest : List EventRow)
    (hany : (r :: rest).any p = true) (hr : p r = false) : rest.any p = true := by
  rcases List.any_eq_true.mp hany with ⟨x, hx, hpx⟩
  rcases List.mem_cons.mp hx with hxe | hxs
  · subst hxe; rw [hr] at hpx; cases hpx
  · exact List.any_eq_true.mpr ⟨x, hxs, hpx⟩

/-- Finding in the conflict-update image: the first conflicting row has been
replaced by the written row. -/
theorem findReplace (a : PyStr) (w : EventRow) (hw : (w.airtable_id == a) = true) :
    ∀ tbl : Table, tbl.any (fun row => row.airtable_id == a) = true →
      (tbl.map fun row => if row.airtable_id == a then w else row).find?
          (fun row => row.airtable_id == a) = some w := by
  intro tbl
  induction tbl with
  | nil => intro h; cases h
  | cons r rest ih =>
    intro hany
    by_cases hr : (r.airtable_id == a) = true
    · rw [List.map_cons, if_pos hr]
      exact List.find?_cons_of_pos _ hw
    · rw [Bool.not_eq_true] at hr
      have hr' : ¬(r.airtable_id == a) = true := by rw [hr]; exact Bool.false_ne_true
      rw [List.map_cons, if_neg hr']
      simp only [List.find?_cons, hr]
      exact ih (any_tail _ r rest hany hr)

/-- `find?` skips a block in which no element satisfies the predicate. -/
theorem find?_skip_of_any_false (p : EventRow → Bool) (tbl l : Table)
    (h : tbl.any p = false) : (tbl ++ l).find? p = l.find? p := by
  rw [List.find?_append]
  have hnone : tbl.find? p = none :=
    List.find?_eq_none.mpr fun x hx => List.any_eq_false.mp h x hx
  rw [hnone, Option.none_or]

/-- After an upsert keyed on `aid`, looking `aid` up yields exactly the row
written from the record at the write timestamp. -/
theorem upsert_find (now : Nat) (tbl : Table) (m : MappedRecord) (aid : PyStr)
    (haid : m.airtable_id = some aid) :
    (upsert now tbl m).find? (fun row => row.airtable_id == aid) =
      some (rowOfMapped aid m now) := by
  unfold upsert
  rw [haid, Option.getD_some]
  by_cases hany : tbl.any (fun row => row.airtable_id == aid) = true
  · rw [if_pos hany]
    exact findReplace aid (rowOfMapped aid m now) (beq_self_eq_true aid) tbl hany
  · rw [Bool.not_eq_true] at hany
    rw [if_neg (by rw [hany]; exact Bool.false_ne_true)]
    rw [find?_skip_of_any_false _ tbl _ hany]
    exact List.find?_cons_of_pos _ (beq_self_eq_true aid)

/-- Replacing the conflicting rows by a row with the same identifier does
not change the multiplicity of that identifier. -/
theorem countById_map_replace (a : PyStr) (w : EventRow) (hw : (w.airtable_id == a) = true)
    (tbl : Table) :
    countById a (tbl.map fun row => if row.airtable_id == a then w else row) =
      countById a tbl := by
  induction tbl with
  | nil => rfl
  | cons r rest ih =>
    by_cases hr : (r.airtable_id == a) = true
    · rw [List.map_cons, if_pos hr]
      simp only [countById, List.filter_cons, hw, hr, if_true, List.length_cons]
      rw [countById, countById] at ih
      omega
    · rw [Bool.not_eq_true] at hr
      have hr' : ¬(r.airtable_id == a) = true := by rw [hr]; exact Bool.false_ne_true
      rw [List.map_cons, if_neg hr']
      simp only [countById, List.filter_cons, hr, Bool.false_eq_true, if_false]
      rw [countById, countById] at ih
      exact ih

/-- An identifier absent from a table has multiplicity zero. -/
theorem countById_eq_zero (a : PyStr) (tbl : Table)
    (h : a ∉ tableIds tbl) : countById a tbl = 0 := by
  induction tbl with
  | nil => rfl
  | cons r rest ih =>
    rw [tableIds, List.map_cons] at h
    have hr : (r.airtable_id == a) = false := by
      apply beq_eq_false_iff_ne.mpr
      intro hcontra
      exact h (by rw [hcontra]; exact List.mem_cons_self _ _)
    have hrest : a ∉ tableIds rest := fun hmem => h (List.mem_cons_of_mem _ hmem)
    simp only [countById, List.filter_cons, hr, Bool.false_eq_true, if_false]
    exact ih hrest

/-- A present identifier has positive multiplicity. -/
theorem countById_pos (a : PyStr) (tbl : Table)
    (h : tbl.any (fun row => row.airtable_id == a) = true) : 1 ≤ countById a tbl := by
  induction tbl with
  | nil => cases h
  | cons r rest ih =>
    by_cases hr : (r.airtable_id == a) = true
    · simp only [countById, List.filter_cons, hr, if_true, List.length_cons]
      omega
    · rw [Bool.not_eq_true] at hr
      simp only [countById, List.filter_cons, hr, Bool.false_eq_true, if_false]
      exact ih (any_tail _ r rest h hr)

/-- Under the unique-identifier invariant every multiplicity is at most one. -/
theorem countById_le_one (a : PyStr) (tbl : Table)
    (h : (tableIds tbl).Nodup) : countById a tbl ≤ 1 := by
  induction tbl with
  | nil => exact Nat.zero_le 1
  | cons r rest ih =>
    rw [tableIds, List.map_cons, List.nodup_cons] at h
    by_cases hr : (r.airtable_id == a) = true
    · have ha : r.airtable_id = a := eq_of_beq hr
      have hzero : countById a rest = 0 :=
        countById_eq_zero a rest (by rw [← ha]; exact h.1)
      simp only [countById, List.filter_cons, hr, if_true, List.length_cons]
      rw [countById] at hzero
      omega
    · rw [Bool.not_eq_true] at hr
      simp only [countById, List.filter_cons, hr, Bool.false_eq_true, if_false]
      exact ih h.2

/-- The conflict-update image keeps the identifier column of every row. -/
theorem tableIds_map_replace (a : PyStr) (w : EventRow) (hw : w.airtable_id = a)
    (tbl : Table) :
    tableIds (tbl.map fun row => if row.airtable_id == a then w else row) =
      tableIds tbl := by
  rw [tableIds, tableIds, List.map_map]
  apply List.map_congr_left
  intro r hrm
  by_cases h : (r.airtable_id == a) = true
  · simp only [Function.comp_apply, if_pos h]
    rw [hw, eq_of_beq h]
  · rw [Bool.not_eq_true] at h
    have h' : ¬(r.airtable_id == a) = true := by rw [h]; exact Bool.false_ne_true
    simp only [Function.comp_apply, if_neg h']

/-- An upsert writes exactly one row for its identifier (given uniqueness). -/
theorem upsert_countById (now : Nat) (tbl : Table) (m : MappedRecord) (aid : PyStr)
    (haid : m.airtable_id = some aid) (hwf : (tableIds tbl).Nodup) :
    countById aid (upsert now tbl m) = 1 := by
  unfold upsert
  rw [haid, Option.getD_some]
  by_cases hany : tbl.any (fun row => row.airtable_id == aid) = true
  · rw [if_pos hany,
      countById_map_replace aid (rowOfMapped aid m now) (beq_self_eq_true aid) tbl]
    have hle := countById_le_one aid tbl hwf
    have hge := countById_pos aid tbl hany
    omega
  · rw [Bool.not_eq_true] at hany
    rw [if_neg (by rw [hany]; exact Bool.false_ne_true)]
    have hnot : aid ∉ tableIds tbl := by
      intro hmem
      rcases List.mem_map.mp hmem with ⟨row, hrow, hid⟩
      have hfalse := List.any_eq_false.mp hany row hrow
      exact hfalse (by rw [hid]; exact beq_self_eq_true aid)
    have hzero : countById aid tbl = 0 := countById_eq_zero aid tbl hnot
    have hwid : ((rowOfMapped aid m now).airtable_id == aid) = true := beq_self_eq_true aid
    rw [countById, List.filter_append, List.length_append]
    simp only [List.filter_cons, hwid, if_true, List.filter_nil, List.length_cons,
      List.length_nil]
    rw [countById] at hzero
    omega

/-- An upsert preserves the unique-identifier invariant. -/
theorem upsert_nodup (now : Nat) (tbl : Table) (m : MappedRecord)
    (hwf : (tableIds tbl).Nodup) : (tableIds (upsert now tbl m)).Nodup := by
  unfold upsert
  by_cases hany : tbl.any (fun row => row.airtable_id == m.airtable_id.getD []) = true
  · rw [if_pos hany,
      tableIds_map_replace (m.airtable_id.getD [])
        (rowOfMapped (m.airtable_id.getD []) m now) rfl tbl]
    exact hwf
  · rw [Bool.not_eq_true] at hany
    rw [if_neg (by rw [hany]; exact Bool.false_ne_true)]
    have hnot : m.airtable_id.getD [] ∉ tableIds tbl := by
      intro hmem
      rcases List.mem_map.mp hmem with ⟨row, hrow, hid⟩
      have hfalse := List.any_eq_false.mp hany row hrow
      exact hfalse (by rw [hid]; exact beq_self_eq_true _)
    rw [tableIds, List.map_append]
    refine List.Nodup.append hwf (List.nodup_singleton _) ?_
    intro x hx hy
    have hxval : x = m.airtable_id.getD [] := by simpa using hy
    rw [hxval] at hx
    exact hnot hx

/-- No upsert removes an identifier from the table. -/
theorem mem_tableIds_upsert (now : Nat) (tbl : Table) (m : MappedRecord) (j : PyStr)
    (h : j ∈ tableIds tbl) : j ∈ tableIds (upsert now tbl m) := by
  unfold upsert
  by_cases hany : tbl.any (fun row => row.airtable_id == m.airtable_id.getD []) = true
  · rw [if_pos hany,
      tableIds_map_replace (m.airtable_id.getD [])
        (rowOfMapped (m.airtable_id.getD []) m now) rfl tbl]
    exact h
  · rw [Bool.not_eq_true] at hany
    rw [if_neg (by rw [hany]; exact Bool.false_ne_true)]
    rw [tableIds, List.map_append]
    exact List.mem_append_left _ h

/-- No sync removes an identifier from the table. -/
theorem mem_tableIds_sync (t : Nat) (tbl : Table) (recs : List RawRecord) (j : PyStr)
    (h : j ∈ tableIds tbl) : j ∈ tableIds (sync_records t tbl recs).1 := by
  unfold sync_records
  by_cases hemp : (processedBatch recs).isEmpty = true
  · simp only [hemp, if_true]
    exact h
  · simp only [hemp, Bool.false_eq_true, if_false]
    suffices hgen : ∀ (ms : List MappedRecord) (tbl' : Table), j ∈ tableIds tbl' →
        j ∈ tableIds (ms.foldl (upsert t) tbl') by
      exact hgen (processedBatch recs) tbl h
    intro ms
    induction ms with
    | nil => intro tbl' h'; exact h'
    | cons m ms ih =>
      intro tbl' h'
      exact ih _ (mem_tableIds_upsert t tbl' m j h')

/-- C2: re-syncing the same truthy external identifier with different field
values leaves (under the unique-identifier invariant) exactly one row for
that identifier; that row holds all the mutable field values of the second
sync and an update timestamp equal to the second sync's clock, later than
the timestamp the first sync wrote; and no sync ever removes a row's
identifier from the table. -/
theorem claimC2_resync_overwrites (tbl : Table) (t1 t2 : Nat) (r1 r2 : RawRecord)
    (aid : PyStr) (hwf : (tableIds tbl).Nodup)
    (h1 : r1.id = some aid) (h2 : r2.id = some aid) (hne : aid ≠ [])
    (hdiff : _process_record r1 ≠ _process_record r2) (hlt : t1 < t2) :
    countById aid (sync_records t2 (sync_records t1 tbl [r1]).1 [r2]).1 = 1 ∧
    (sync_records t2 (sync_records t1 tbl [r1]).1 [r2]).1.find?
        (fun row => row.airtable_id == aid) =
      some (rowOfMapped aid (_process_record r2) t2) ∧
    (sync_records t1 tbl [r1]).1.find? (fun row => row.airtable_id == aid) =
      some (rowOfMapped aid (_process_record r1) t1) ∧
    (rowOfMapped aid (_process_record r1) t1).updated_at <
      (rowOfMapped aid (_process_record r2) t2).updated_at ∧
    (∀ (tbl' : Table) (t : Nat) (recs : List RawRecord) (j : PyStr),
      j ∈ tableIds tbl' → j ∈ tableIds (sync_records t tbl' recs).1) := by
  have htr1 : pyTruthyOpt r1.id = true := by
    rw [h1]; exact pyTruthyOpt_some_of_ne aid hne
  have htr2 : pyTruthyOpt r2.id = true := by
    rw [h2]; exact pyTruthyOpt_some_of_ne aid hne
  have hm1 : (_process_record r1).airtable_id = some aid := h1
  have hm2 : (_process_record r2).airtable_id = some aid := h2
  rw [sync_records_singleton t1 tbl r1 htr1, sync_records_singleton t2 _ r2 htr2]
  have hwf1 : (tableIds (upsert t1 tbl (_process_record r1))).Nodup :=
    upsert_nodup t1 tbl (_process_record r1) hwf
  refine ⟨?_, ?_, ?_, hlt, ?_⟩
  · exact upsert_countById t2 _ (_process_record r2) aid hm2 hwf1
  · exact upsert_find t2 _ (_process_record r2) aid hm2
  · exact upsert_find t1 tbl (_process_record r1) aid hm1
  · exact fun tbl' t recs j h => mem_tableIds_sync t tbl' recs j h

/-- Witness for C2: syncing `rec1` at time 1 and again at time 2 with a
changed name leaves one row carrying the second sync's values. -/
theorem claimC2_resync_overwrites_witness :
    countById "rec1".data
        (sync_records 2 (sync_records 1 [] [sampleRecordA]).1 [sampleRecordB]).1 = 1 ∧
    (sync_records 2 (sync_records 1 [] [sampleRecordA]).1 [sampleRecordB]).1.find?
        (fun row => row.airtable_id == "rec1".data) =
      some (rowOfMapped "rec1".data (_process_record sampleRecordB) 2) :=
  ⟨(claimC2_resync_overwrites [] 1 2 sampleRecordA sampleRecordB "rec1".data
      (by simp [tableIds]) rfl rfl (by decide) (by decide) (by decide)).1,
    (claimC2_resync_overwrites [] 1 2 sampleRecordA sampleRecordB "rec1".data
      (by simp [tableIds]) rfl rfl (by decide) (by decide) (by decide)).2.1⟩

end EventsBot
